import Mathlib

set_option linter.unusedVariables false

/-!
Shallow embedding of the Backend API Client with circuit breaker and retry
from `cliq-extension/server.js` (class `APIClient`), together with theorems
settling the specification claims about it.

Modelling conventions:
- Time is `Nat` milliseconds; each network attempt is described by an
  `AttemptEvent` giving the `Date.now()` value observed at the circuit-breaker
  check and at the point a failure or success is recorded, plus the outcome
  delivered by `fetch` for that attempt.
- The external backend is modelled as an environment `Nat → AttemptEvent`
  mapping the attempt index (the `retryCount` of the recursive call) to what
  that attempt observes.
- JavaScript `Error` objects are modelled by their observable `name` and
  `message` fields; `error.message.includes(pat)` is substring containment.
- The parsed JSON body is modelled by the only field the client inspects
  (`status`) plus an opaque `rest` payload.
- `this.circuitBreakerResetTime` starts as `null`; `Date.now() >= null`
  coerces `null` to `0` in JavaScript, modelled by `Option.getD 0`.
-/

namespace CliqDashboard

/-- Observable fields of a JavaScript `Error`. -/
structure JsError where
  name : String
  message : String
deriving DecidableEq, Repr

/-- Parsed JSON response body; the client only ever inspects `status`
(`result.status === 'healthy'` in `healthCheck`), everything else is an
opaque pass-through modelled by `rest`. -/
structure Value where
  status : Option String := none
  rest : String := ""
deriving DecidableEq, Repr

/-- An HTTP response as observed by the client: numeric status, status text,
and the outcome of `response.json()` (a parse failure throws a `JsError`). -/
structure HttpResponse where
  status : Nat
  statusText : String
  jsonBody : Except JsError Value

/-- `response.ok` in node-fetch: status in the range [200, 300). -/
def HttpResponse.isOk (r : HttpResponse) : Bool :=
  200 ≤ r.status && r.status < 300

/-- Outcome delivered by `fetch` for one attempt: either the promise rejects
(network error, or abort from the timeout controller) or a response arrives. -/
inductive FetchResult where
  | err (e : JsError)
  | resp (r : HttpResponse)

/-- One network attempt as seen by `_makeRequest`: the clock value at the
circuit-breaker check, the fetch outcome, and the clock value when the
failure/success is recorded. -/
structure AttemptEvent where
  checkTime : Nat
  result : FetchResult
  doneTime : Nat

/-- Client configuration, with the constructor defaults of `APIClient`
(`server.js` lines 420-432). `baseURL` is `none` when neither the constructor
argument nor `BACKEND_API_URL` supplies one. -/
structure Config where
  baseURL : Option String := none
  timeout : Nat := 10000
  maxRetries : Nat := 3
  retryDelay : Nat := 1000
  circuitBreakerThreshold : Nat := 5
  circuitBreakerTimeout : Nat := 30000

/-- The mutable circuit-breaker state held on the client instance. -/
structure ClientState where
  circuitBreakerFailures : Nat
  circuitBreakerOpen : Bool
  circuitBreakerResetTime : Option Nat
deriving DecidableEq, Repr

/-- State of a freshly constructed client. -/
def freshState : ClientState := ⟨0, false, none⟩

/-- The error thrown by `_checkCircuitBreaker` while the breaker is open. -/
def circuitOpenError : JsError :=
  ⟨"Error", "Circuit breaker is OPEN - backend unavailable"⟩

/-- `_checkCircuitBreaker` (`server.js` lines 438-452): pass when closed;
when open, lazily reset (clearing the failure counter) if the reset time has
elapsed, otherwise throw the circuit-open error. -/
def checkCircuitBreaker (now : Nat) (s : ClientState) : Except JsError ClientState :=
  if s.circuitBreakerOpen = false then
    Except.ok s
  else if (s.circuitBreakerResetTime.getD 0) ≤ now then
    Except.ok { s with circuitBreakerOpen := false, circuitBreakerFailures := 0 }
  else
    Except.error circuitOpenError

/-- `_recordFailure` (`server.js` lines 458-466): increment the failure
counter; when it reaches the threshold, open the breaker and set the reset
time to `Date.now() + circuitBreakerTimeout`. -/
def recordFailure (cfg : Config) (now : Nat) (s : ClientState) : ClientState :=
  let f := s.circuitBreakerFailures + 1
  if cfg.circuitBreakerThreshold ≤ f then
    { circuitBreakerFailures := f, circuitBreakerOpen := true,
      circuitBreakerResetTime := some (now + cfg.circuitBreakerTimeout) }
  else
    { s with circuitBreakerFailures := f }

/-- `_recordSuccess` (`server.js` lines 472-477): reset the failure counter
(guarded by a positivity check that only affects logging). -/
def recordSuccess (s : ClientState) : ClientState :=
  if 0 < s.circuitBreakerFailures then { s with circuitBreakerFailures := 0 } else s

/-- `needle` is a prefix of `haystack` (on character lists). -/
def hasPrefixChars : List Char → List Char → Bool
  | [], _ => true
  | _ :: _, [] => false
  | a :: as, b :: bs => a == b && hasPrefixChars as bs

/-- `needle` occurs contiguously somewhere in `haystack` (on character
lists). -/
def hasInfixChars (needle : List Char) : List Char → Bool
  | [] => hasPrefixChars needle []
  | b :: bs => hasPrefixChars needle (b :: bs) || hasInfixChars needle bs

/-- JavaScript `haystack.includes(needle)`: substring containment. -/
def strIncludes (haystack needle : String) : Bool :=
  hasInfixChars needle.toList haystack.toList

/-- `_shouldRetry` (`server.js` lines 532-540): retry on abort (timeout), on
messages containing `ECONNREFUSED` or `ETIMEDOUT`, or on `HTTP 5` messages
produced for 5xx statuses. Note: `ECONNRESET` is absent from this list. -/
def shouldRetry (e : JsError) : Bool :=
  e.name == "AbortError" ||
  strIncludes e.message "ECONNREFUSED" ||
  strIncludes e.message "ETIMEDOUT" ||
  strIncludes e.message "HTTP 5"

/-- The error thrown for a non-2xx response:
`new Error(\x60HTTP ${response.status}: ${response.statusText}\x60)`. -/
def httpStatusError (status : Nat) (statusText : String) : JsError :=
  ⟨"Error", "HTTP " ++ toString status ++ ": " ++ statusText⟩

/-- Result of running `_makeRequest` (or a typed wrapper) to completion:
the number of real network attempts made, total milliseconds slept in
backoff, the returned value or thrown error, and the final breaker state. -/
structure RunResult where
  attempts : Nat
  slept : Nat
  result : Except JsError Value
  state : ClientState

/-- The `try` block of `_makeRequest` up to the point an error is thrown
into the `catch` (`server.js` lines 490-509): a rejected fetch throws as-is;
a non-2xx response records one failure and throws the HTTP status error; an
unparseable body throws the parse error; otherwise success is recorded and
the body returned. Returns the thrown error paired with the state as it
stands when control reaches the `catch`. -/
def tryBody (cfg : Config) (ev : AttemptEvent) (s : ClientState) :
    Except (JsError × ClientState) (Value × ClientState) :=
  match ev.result with
  | FetchResult.err e => Except.error (e, s)
  | FetchResult.resp r =>
    if r.isOk = true then
      match r.jsonBody with
      | Except.ok v => Except.ok (v, recordSuccess s)
      | Except.error e => Except.error (e, s)
    else
      Except.error (httpStatusError r.status r.statusText,
        recordFailure cfg ev.doneTime s)

/-- `_makeRequest` (`server.js` lines 483-526). Checks the breaker, runs one
attempt, and on error records a failure in the `catch` (note: for a non-2xx
response this is the second `_recordFailure` of the attempt, the first
having fired inside the `try`), then retries — GET only, while
`retryCount < maxRetries` and `_shouldRetry(error)` — after sleeping
`retryDelay * (retryCount + 1)` milliseconds. -/
def makeRequestAux (cfg : Config) (isGet : Bool) (env : Nat → AttemptEvent)
    (retryCount : Nat) (s : ClientState) : RunResult :=
  match checkCircuitBreaker (env retryCount).checkTime s with
  | Except.error e => ⟨0, 0, Except.error e, s⟩
  | Except.ok s1 =>
    match tryBody cfg (env retryCount) s1 with
    | Except.ok (v, s2) => ⟨1, 0, Except.ok v, s2⟩
    | Except.error (e, s2) =>
      let s3 := recordFailure cfg (env retryCount).doneTime s2
      if hR : (isGet && decide (retryCount < cfg.maxRetries) && shouldRetry e) = true then
        let rest := makeRequestAux cfg isGet env (retryCount + 1) s3
        ⟨1 + rest.attempts, cfg.retryDelay * (retryCount + 1) + rest.slept,
          rest.result, rest.state⟩
      else
        ⟨1, 0, Except.error e, s3⟩
termination_by cfg.maxRetries - retryCount
decreasing_by
  have h1 : retryCount < cfg.maxRetries := by
    have := (Bool.and_eq_true _ _).mp ((Bool.and_eq_true _ _).mp hR).1
    exact of_decide_eq_true this.2
  omega

/-- A call to `_makeRequest` as made by the typed wrappers: `retryCount`
starts at 0. -/
def makeRequest (cfg : Config) (isGet : Bool) (env : Nat → AttemptEvent)
    (s : ClientState) : RunResult :=
  makeRequestAux cfg isGet env 0 s

/-- A JavaScript value stored in a payload field, as far as the client can
distinguish it: a string, or a (primitive or plain) non-string value, which
has no `substring` method. -/
inductive JsVal where
  | str (s : String)
  | other
deriving DecidableEq, Repr

/-- The analysis request payload. `message` is `none` when the field is
absent (`undefined`). -/
structure Payload where
  message : Option JsVal
  userId : Option String := none
  channelId : Option String := none

/-- `analyzeMessage` (`server.js` lines 567-585): reads
`payload.message.substring(0, 50)` for logging before the `try` block, so an
absent or non-string `message` throws a raw `TypeError` before any request;
otherwise POSTs to `/analyze` and wraps any error as
`Backend analysis failed: ...`. -/
def analyzeMessage (cfg : Config) (env : Nat → AttemptEvent) (payload : Payload)
    (s : ClientState) : RunResult :=
  match payload.message with
  | some (JsVal.str _) =>
    let r := makeRequest cfg false env s
    match r.result with
    | Except.ok v => { r with result := Except.ok v }
    | Except.error e =>
      { r with result :=
          Except.error ⟨"Error", "Backend analysis failed: " ++ e.message⟩ }
  | some JsVal.other =>
    ⟨0, 0, Except.error ⟨"TypeError", "payload.message.substring is not a function"⟩, s⟩
  | none =>
    ⟨0, 0, Except.error
      ⟨"TypeError", "Cannot read properties of undefined (reading substring)"⟩, s⟩

/-- `getTodayStats` (`server.js` lines 597-616): GET `/stats/today`, wrapping
any error as `Failed to fetch stats: ...`. The optional channel id only
affects the URL query string. -/
def getTodayStats (cfg : Config) (env : Nat → AttemptEvent)
    (channelId : Option String) (s : ClientState) : RunResult :=
  let r := makeRequest cfg true env s
  match r.result with
  | Except.ok _ => r
  | Except.error e =>
    { r with result := Except.error ⟨"Error", "Failed to fetch stats: " ++ e.message⟩ }

/-- `getTrends` (`server.js` lines 625-644): GET `/stats/trends`, wrapping
any error as `Failed to fetch trends: ...`. `days` and the optional channel
id only affect the URL query string. -/
def getTrends (cfg : Config) (env : Nat → AttemptEvent) (days : Nat)
    (channelId : Option String) (s : ClientState) : RunResult :=
  let r := makeRequest cfg true env s
  match r.result with
  | Except.ok _ => r
  | Except.error e =>
    { r with result := Except.error ⟨"Error", "Failed to fetch trends: " ++ e.message⟩ }

/-- Result of `healthCheck`: always a boolean, never an error. -/
structure HealthResult where
  value : Bool
  attempts : Nat
  slept : Nat
  state : ClientState

/-- `healthCheck` (`server.js` lines 651-664): GET `/health`; returns
`result.status === 'healthy'` on success and `false` on any error. -/
def healthCheck (cfg : Config) (env : Nat → AttemptEvent) (s : ClientState) :
    HealthResult :=
  let r := makeRequest cfg true env s
  match r.result with
  | Except.ok v => ⟨v.status == some "healthy", r.attempts, r.slept, r.state⟩
  | Except.error _ => ⟨false, r.attempts, r.slept, r.state⟩

/-- The configuration error thrown by `validateConfig` when `baseURL` is
unset. -/
def configurationError : JsError :=
  ⟨"Error", "BACKEND_API_URL is not configured. Please set it in extension settings."⟩

/-- The error thrown by `validateConfig` when the health check reports
unhealthy. -/
def backendUnhealthyError (cfg : Config) : JsError :=
  ⟨"Error", "Backend at " ++ (cfg.baseURL.getD "") ++
    " is not responding. Please check the URL and backend status."⟩

/-- Result of `validateConfig`: the returned value (`true`) or thrown error,
plus attempts made and final state. -/
structure ValidateResult where
  result : Except JsError Bool
  attempts : Nat
  state : ClientState

/-- `validateConfig` (`server.js` lines 670-682): throw a configuration
error when `this.baseURL` is falsy (absent or the empty string) before any
request; otherwise run `healthCheck` and throw when it reports unhealthy,
returning `true` when healthy. -/
def validateConfig (cfg : Config) (env : Nat → AttemptEvent) (s : ClientState) :
    ValidateResult :=
  if cfg.baseURL = none ∨ cfg.baseURL = some "" then
    ⟨Except.error configurationError, 0, s⟩
  else
    let h := healthCheck cfg env s
    if h.value = false then
      ⟨Except.error (backendUnhealthyError cfg), h.attempts, h.state⟩
    else
      ⟨Except.ok true, h.attempts, h.state⟩

/-! ### Derived definitions used by the verification -/

/-- The value of one `_makeRequest` attempt when no retry follows it (the
recursion-free part of the body); proved equal to `makeRequestAux` for
non-GET requests in `makeRequestAux_post`. -/
def singleAttempt (cfg : Config) (ev : AttemptEvent) (s : ClientState) : RunResult :=
  match checkCircuitBreaker ev.checkTime s with
  | Except.error e => ⟨0, 0, Except.error e, s⟩
  | Except.ok s1 =>
    match tryBody cfg ev s1 with
    | Except.ok (v, s2) => ⟨1, 0, Except.ok v, s2⟩
    | Except.error (e, s2) => ⟨1, 0, Except.error e, recordFailure cfg ev.doneTime s2⟩

/-- Breaker-state invariant: whenever the breaker is open, a reset time has
been recorded. (The failure counter is a `Nat` by construction, matching the
code, which only ever sets it to 0 or increments it.) -/
def BreakerInv (s : ClientState) : Prop :=
  s.circuitBreakerOpen = true → ∃ t, s.circuitBreakerResetTime = some t

/-- Environment in which every attempt rejects at the fetch level with
error `e`, with all clock reads equal to `t`. -/
def netFailEnv (e : JsError) (t : Nat) : Nat → AttemptEvent :=
  fun _ => ⟨t, FetchResult.err e, t⟩

/-- Environment in which every attempt succeeds with body `v` (HTTP 200). -/
def successEnv (v : Value) : Nat → AttemptEvent :=
  fun _ => ⟨0, FetchResult.resp ⟨200, "OK", Except.ok v⟩, 0⟩

/-- `n` consecutive mutating (`POST`, hence unretried) calls, each failing
at the fetch level with error `e`; call `i` observes clock value `times i`.
Models a run of consecutive failed attempts against the breaker. -/
def runFailCalls (cfg : Config) (e : JsError) (times : Nat → Nat) :
    Nat → ClientState → ClientState
  | 0, s => s
  | n + 1, s =>
    (makeRequest cfg false (netFailEnv e (times n)) (runFailCalls cfg e times n s)).state

/-! ### Concrete fixtures -/

/-- The constructor-default configuration of `APIClient`. -/
def defaultCfg : Config := {}

/-- A connection-refused rejection from `node-fetch`. -/
def connRefusedErr : JsError :=
  ⟨"FetchError", "request to http://x/stats/today failed, reason: connect ECONNREFUSED 127.0.0.1:8000"⟩

/-- A connection-reset rejection from `node-fetch`. -/
def connResetErr : JsError :=
  ⟨"FetchError", "request to http://x/stats/today failed, reason: read ECONNRESET"⟩

/-- A connect-timeout rejection from `node-fetch`. -/
def etimedoutErr : JsError :=
  ⟨"FetchError", "request to http://x/stats/today failed, reason: connect ETIMEDOUT 10.0.0.1:443"⟩

/-- The abort raised when the request timeout fires. -/
def abortErr : JsError := ⟨"AbortError", "The operation was aborted"⟩

/-- A JSON parse failure raised by `response.json()`. -/
def parseErr : JsError :=
  ⟨"FetchError", "invalid json response body reason: Unexpected token in JSON at position 0"⟩

/-- A healthy `/health` response body. -/
def healthyValue : Value := ⟨some "healthy", ""⟩

/-- An unhealthy `/health` response body. -/
def degradedValue : Value := ⟨some "degraded", ""⟩

/-- An opaque trends response body. -/
def trendsValue : Value := ⟨none, "trends-body"⟩

/-- An HTTP 500 response (body never parsed since `response.ok` is false). -/
def http500Ev : AttemptEvent :=
  ⟨0, FetchResult.resp ⟨500, "Internal Server Error", Except.error parseErr⟩, 0⟩

/-- Environment for the retry scenario: HTTP 503 on the first two attempts,
then HTTP 200 with `trendsValue`. -/
def env503 : Nat → AttemptEvent
  | 0 => ⟨0, FetchResult.resp ⟨503, "Service Unavailable", Except.error parseErr⟩, 0⟩
  | 1 => ⟨0, FetchResult.resp ⟨503, "Service Unavailable", Except.error parseErr⟩, 0⟩
  | _ => ⟨0, FetchResult.resp ⟨200, "OK", Except.ok trendsValue⟩, 0⟩

/-- A breaker state that is open until time 1000 with the default threshold
reached. -/
def openState : ClientState := ⟨5, true, some 1000⟩

/-! ### Helper lemmas -/

/-- `_recordFailure` always increments the failure counter by exactly one. -/
theorem recordFailure_failures (cfg : Config) (now : Nat) (s : ClientState) :
    (recordFailure cfg now s).circuitBreakerFailures = s.circuitBreakerFailures + 1 := by
  unfold recordFailure
  dsimp only
  split <;> rfl

/-- If `_recordFailure` turns the breaker from closed to open, the new reset
time is the current time plus the reset timeout and the counter has reached
the threshold. -/
theorem recordFailure_opens (cfg : Config) (now : Nat) (s : ClientState)
    (h2 : (recordFailure cfg now s).circuitBreakerOpen = true)
    (h1 : s.circuitBreakerOpen = false) :
    (recordFailure cfg now s).circuitBreakerResetTime = some (now + cfg.circuitBreakerTimeout) ∧
    cfg.circuitBreakerThreshold ≤ (recordFailure cfg now s).circuitBreakerFailures := by
  by_cases hc : cfg.circuitBreakerThreshold ≤ s.circuitBreakerFailures + 1
  · unfold recordFailure
    dsimp only
    rw [if_pos hc]
    exact ⟨rfl, hc⟩
  · exfalso
    unfold recordFailure at h2
    dsimp only at h2
    rw [if_neg hc] at h2
    rw [h1] at h2
    cases h2

/-- `_recordFailure` preserves the breaker invariant. -/
theorem recordFailure_inv (cfg : Config) (now : Nat) (s : ClientState)
    (h : BreakerInv s) : BreakerInv (recordFailure cfg now s) := by
  unfold recordFailure BreakerInv at *
  dsimp only
  split
  · intro _
    exact ⟨_, rfl⟩
  · intro ho
    exact h ho

/-- `_recordSuccess` preserves the breaker invariant. -/
theorem recordSuccess_inv (s : ClientState) (h : BreakerInv s) :
    BreakerInv (recordSuccess s) := by
  unfold recordSuccess BreakerInv at *
  split <;> exact h

/-- A successful `_checkCircuitBreaker` yields a state satisfying the
breaker invariant. -/
theorem checkCircuitBreaker_ok_inv (now : Nat) (s s1 : ClientState)
    (hchk : checkCircuitBreaker now s = Except.ok s1) (h : BreakerInv s) :
    BreakerInv s1 := by
  unfold checkCircuitBreaker at hchk
  split at hchk
  · cases hchk
    exact h
  · split at hchk
    · cases hchk
      intro ho
      simp at ho
    · cases hchk

/-- When the breaker is closed, `_checkCircuitBreaker` passes the state
through unchanged. -/
theorem checkCircuitBreaker_closed (now : Nat) (s : ClientState)
    (h : s.circuitBreakerOpen = false) :
    checkCircuitBreaker now s = Except.ok s := by
  simp [checkCircuitBreaker, h]

/-- When the breaker is open and the reset time has not elapsed,
`_checkCircuitBreaker` throws the circuit-open error. -/
theorem checkCircuitBreaker_rejects (now : Nat) (s : ClientState) (t : Nat)
    (hopen : s.circuitBreakerOpen = true)
    (hrt : s.circuitBreakerResetTime = some t) (hlt : now < t) :
    checkCircuitBreaker now s = Except.error circuitOpenError := by
  unfold checkCircuitBreaker
  rw [if_neg (by simp [hopen]), hrt]
  rw [if_neg (by simp; omega)]

/-- When the breaker is open and the reset time has elapsed,
`_checkCircuitBreaker` closes the breaker and clears the counter. -/
theorem checkCircuitBreaker_resets (now : Nat) (s : ClientState) (t : Nat)
    (hopen : s.circuitBreakerOpen = true)
    (hrt : s.circuitBreakerResetTime = some t) (hle : t ≤ now) :
    checkCircuitBreaker now s =
      Except.ok { s with circuitBreakerOpen := false, circuitBreakerFailures := 0 } := by
  unfold checkCircuitBreaker
  rw [if_neg (by simp [hopen]), hrt]
  rw [if_pos (by simpa using hle)]

/-- The `try` block preserves the breaker invariant in its error outcome. -/
theorem tryBody_error_inv (cfg : Config) (ev : AttemptEvent) (s1 : ClientState)
    (e : JsError) (s2 : ClientState)
    (htry : tryBody cfg ev s1 = Except.error (e, s2)) (h : BreakerInv s1) :
    BreakerInv s2 := by
  unfold tryBody at htry
  split at htry
  · cases htry
    exact h
  · split at htry
    · split at htry
      · cases htry
      · cases htry
        exact h
    · cases htry
      exact recordFailure_inv _ _ _ h

/-- The `try` block preserves the breaker invariant in its success
outcome. -/
theorem tryBody_ok_inv (cfg : Config) (ev : AttemptEvent) (s1 : ClientState)
    (v : Value) (s2 : ClientState)
    (htry : tryBody cfg ev s1 = Except.ok (v, s2)) (h : BreakerInv s1) :
    BreakerInv s2 := by
  unfold tryBody at htry
  split at htry
  · cases htry
  · split at htry
    · split at htry
      · cases htry
        exact recordSuccess_inv _ h
      · cases htry
    · cases htry

/-- For mutating (non-GET) requests, `_makeRequest` performs exactly the
single-attempt body: the retry guard is always false. -/
theorem makeRequestAux_post (cfg : Config) (env : Nat → AttemptEvent) (rc : Nat)
    (s : ClientState) :
    makeRequestAux cfg false env rc s = singleAttempt cfg (env rc) s := by
  rw [makeRequestAux]
  simp [singleAttempt]

/-- Branch equation: a circuit-breaker rejection ends the call with no
attempt and an unchanged state. -/
theorem makeRequestAux_check_error (cfg : Config) (isGet : Bool)
    (env : Nat → AttemptEvent) (rc : Nat) (s : ClientState) (e : JsError)
    (hchk : checkCircuitBreaker (env rc).checkTime s = Except.error e) :
    makeRequestAux cfg isGet env rc s = ⟨0, 0, Except.error e, s⟩ := by
  rw [makeRequestAux]
  split
  · next e' heq =>
    rw [hchk] at heq
    cases heq
    rfl
  · next s1 heq =>
    rw [hchk] at heq
    cases heq

/-- Branch equation: a successful attempt ends the call with one attempt and
the recorded-success state. -/
theorem makeRequestAux_ok (cfg : Config) (isGet : Bool)
    (env : Nat → AttemptEvent) (rc : Nat) (s s1 : ClientState) (v : Value)
    (s2 : ClientState)
    (hchk : checkCircuitBreaker (env rc).checkTime s = Except.ok s1)
    (htry : tryBody cfg (env rc) s1 = Except.ok (v, s2)) :
    makeRequestAux cfg isGet env rc s = ⟨1, 0, Except.ok v, s2⟩ := by
  rw [makeRequestAux]
  split
  · next e' heq =>
    rw [hchk] at heq
    cases heq
  · next s1' heq =>
    rw [hchk] at heq
    cases heq
    split
    · next v' s2' heq2 =>
      rw [htry] at heq2
      cases heq2
      rfl
    · next e' s2' heq2 =>
      rw [htry] at heq2
      cases heq2

/-- Branch equation: a failed attempt records a failure in the catch block,
then retries when the guard allows and otherwise rethrows. -/
theorem makeRequestAux_err (cfg : Config) (isGet : Bool)
    (env : Nat → AttemptEvent) (rc : Nat) (s s1 : ClientState) (e : JsError)
    (s2 : ClientState)
    (hchk : checkCircuitBreaker (env rc).checkTime s = Except.ok s1)
    (htry : tryBody cfg (env rc) s1 = Except.error (e, s2)) :
    makeRequestAux cfg isGet env rc s =
      (if (isGet && decide (rc < cfg.maxRetries) && shouldRetry e) = true then
        ⟨1 + (makeRequestAux cfg isGet env (rc + 1) (recordFailure cfg (env rc).doneTime s2)).attempts,
         cfg.retryDelay * (rc + 1) +
           (makeRequestAux cfg isGet env (rc + 1) (recordFailure cfg (env rc).doneTime s2)).slept,
         (makeRequestAux cfg isGet env (rc + 1) (recordFailure cfg (env rc).doneTime s2)).result,
         (makeRequestAux cfg isGet env (rc + 1) (recordFailure cfg (env rc).doneTime s2)).state⟩
      else ⟨1, 0, Except.error e, recordFailure cfg (env rc).doneTime s2⟩) := by
  rw [makeRequestAux]
  split
  · next e' heq =>
    rw [hchk] at heq
    cases heq
  · next s1' heq =>
    rw [hchk] at heq
    cases heq
    split
    · next v' s2' heq2 =>
      rw [htry] at heq2
      cases heq2
    · next e' s2' heq2 =>
      rw [htry] at heq2
      cases heq2
      by_cases hg : (isGet && decide (rc < cfg.maxRetries) && shouldRetry e) = true
      · rw [dif_pos hg, if_pos hg]
      · rw [dif_neg hg, if_neg hg]

/-- When the breaker allows the call, at least one real attempt is made. -/
theorem makeRequestAux_attempts_one_le (cfg : Config) (isGet : Bool)
    (env : Nat → AttemptEvent) (rc : Nat) (s s1 : ClientState)
    (hchk : checkCircuitBreaker (env rc).checkTime s = Except.ok s1) :
    1 ≤ (makeRequestAux cfg isGet env rc s).attempts := by
  cases htry : tryBody cfg (env rc) s1 with
  | ok p =>
    rw [makeRequestAux_ok cfg isGet env rc s s1 p.1 p.2 hchk (by rw [htry])]
  | error p =>
    rw [makeRequestAux_err cfg isGet env rc s s1 p.1 p.2 hchk (by rw [htry])]
    split
    · dsimp only
      omega
    · dsimp only
      omega

/-- The total number of network attempts is bounded by
`maxRetries + 1 - retryCount`. -/
theorem makeRequestAux_attempts_le (cfg : Config) (isGet : Bool)
    (env : Nat → AttemptEvent) :
    ∀ rc s, rc ≤ cfg.maxRetries →
      (makeRequestAux cfg isGet env rc s).attempts ≤ cfg.maxRetries + 1 - rc := by
  intro rc s
  induction rc, s using makeRequestAux.induct cfg isGet env with
  | case1 rc s e hchk =>
    intro h
    rw [makeRequestAux_check_error cfg isGet env rc s e hchk]
    dsimp only
    omega
  | case2 rc s s1 hchk v s2 htry =>
    intro h
    rw [makeRequestAux_ok cfg isGet env rc s s1 v s2 hchk htry]
    dsimp only
    omega
  | case3 rc s s1 hchk e s2 htry s3 hguard ih =>
    intro h
    rw [makeRequestAux_err cfg isGet env rc s s1 e s2 hchk htry, if_pos hguard]
    dsimp only
    have hlt : rc < cfg.maxRetries := by
      have h1 := ((Bool.and_eq_true _ _).mp ((Bool.and_eq_true _ _).mp hguard).1).2
      exact of_decide_eq_true h1
    have h2 := ih (by omega)
    unfold_let s3 at h2
    omega
  | case4 rc s s1 hchk e s2 htry hguard =>
    intro h
    rw [makeRequestAux_err cfg isGet env rc s s1 e s2 hchk htry, if_neg hguard]
    dsimp only
    omega

/-- While the breaker is open and the reset time has not elapsed, a call is
rejected without any attempt and without touching the state. -/
theorem makeRequestAux_reject (cfg : Config) (isGet : Bool)
    (env : Nat → AttemptEvent) (rc : Nat) (s : ClientState) (t : Nat)
    (hopen : s.circuitBreakerOpen = true)
    (hrt : s.circuitBreakerResetTime = some t)
    (hlt : (env rc).checkTime < t) :
    makeRequestAux cfg isGet env rc s = ⟨0, 0, Except.error circuitOpenError, s⟩ :=
  makeRequestAux_check_error _ _ _ _ _ _
    (checkCircuitBreaker_rejects _ _ _ hopen hrt hlt)

/-- In an environment where every fetch rejects with a fixed error at a
fixed clock value, every attempt adds exactly one to the failure counter:
the final counter is the initial counter plus the number of attempts
actually made. -/
theorem makeRequestAux_counts (cfg : Config) (isGet : Bool) (e : JsError)
    (t : Nat) (hcb : 0 < cfg.circuitBreakerTimeout) :
    ∀ rc s,
      (s.circuitBreakerOpen = true →
        ∃ u, s.circuitBreakerResetTime = some u ∧ t < u) →
      (makeRequestAux cfg isGet (netFailEnv e t) rc s).state.circuitBreakerFailures
        = s.circuitBreakerFailures
          + (makeRequestAux cfg isGet (netFailEnv e t) rc s).attempts := by
  intro rc s
  induction rc, s using makeRequestAux.induct cfg isGet (netFailEnv e t) with
  | case1 rc s er hchk =>
    intro hP
    rw [makeRequestAux_check_error _ _ _ _ _ _ hchk]
    simp
  | case2 rc s s1 hchk v s2 htry =>
    intro hP
    exfalso
    simp [tryBody, netFailEnv] at htry
  | case3 rc s s1 hchk e' s2 htry s3 hguard ih =>
    intro hP
    cases hop : s.circuitBreakerOpen with
    | true =>
      obtain ⟨u, hu, htu⟩ := hP hop
      rw [checkCircuitBreaker_rejects _ _ _ hop hu
        (show (netFailEnv e t rc).checkTime < u from htu)] at hchk
      cases hchk
    | false =>
      rw [checkCircuitBreaker_closed _ _ hop] at hchk
      cases hchk
      have htry2 : (Except.error (e, s) :
          Except (JsError × ClientState) (Value × ClientState)) = Except.error (e', s2) := by
        rw [← htry]
        rfl
      cases htry2
      rw [makeRequestAux_err cfg isGet _ rc s s e s
        (checkCircuitBreaker_closed _ _ hop) htry, if_pos hguard]
      dsimp only
      have hP3 : s3.circuitBreakerOpen = true →
          ∃ u, s3.circuitBreakerResetTime = some u ∧ t < u := by
        unfold_let s3
        intro ho3
        unfold recordFailure at ho3 ⊢
        dsimp only at ho3 ⊢
        split at ho3
        · next hcond =>
          rw [if_pos hcond]
          exact ⟨(netFailEnv e t rc).doneTime + cfg.circuitBreakerTimeout, rfl, by
            have hdt : (netFailEnv e t rc).doneTime = t := rfl
            omega⟩
        · rw [hop] at ho3
          cases ho3
      have h2 := ih hP3
      unfold_let s3 at h2
      rw [h2, recordFailure_failures]
      omega
  | case4 rc s s1 hchk e' s2 htry hguard =>
    intro hP
    cases hop : s.circuitBreakerOpen with
    | true =>
      obtain ⟨u, hu, htu⟩ := hP hop
      rw [checkCircuitBreaker_rejects _ _ _ hop hu
        (show (netFailEnv e t rc).checkTime < u from htu)] at hchk
      cases hchk
    | false =>
      rw [checkCircuitBreaker_closed _ _ hop] at hchk
      cases hchk
      have htry2 : (Except.error (e, s) :
          Except (JsError × ClientState) (Value × ClientState)) = Except.error (e', s2) := by
        rw [← htry]
        rfl
      cases htry2
      rw [makeRequestAux_err cfg isGet _ rc s s e s
        (checkCircuitBreaker_closed _ _ hop) htry, if_neg hguard]
      dsimp only
      rw [recordFailure_failures]

/-- Consecutive failed mutating calls below the threshold leave the breaker
closed and count the failures. -/
theorem runFailCalls_below (cfg : Config) (e : JsError) (times : Nat → Nat) :
    ∀ n, n < cfg.circuitBreakerThreshold →
      runFailCalls cfg e times n freshState = ⟨n, false, none⟩ := by
  intro n
  induction n with
  | zero =>
    intro _
    rfl
  | succ k ih =>
    intro h
    have hstep : runFailCalls cfg e times (k + 1) freshState
        = (makeRequest cfg false (netFailEnv e (times k))
            (runFailCalls cfg e times k freshState)).state := rfl
    rw [hstep, ih (by omega)]
    have hchk := checkCircuitBreaker_closed ((netFailEnv e (times k)) 0).checkTime
      (⟨k, false, none⟩ : ClientState) rfl
    have htry : tryBody cfg ((netFailEnv e (times k)) 0) ⟨k, false, none⟩
        = Except.error (e, ⟨k, false, none⟩) := rfl
    unfold makeRequest
    rw [makeRequestAux_err _ _ _ _ _ _ _ _ hchk htry, if_neg (by simp)]
    dsimp only
    unfold recordFailure
    dsimp only
    rw [if_neg (by omega)]

/-- The `circuitBreakerThreshold`-th consecutive failed call opens the
breaker, with the reset time a full `circuitBreakerTimeout` past the clock
value of the final failure. -/
theorem runFailCalls_threshold (cfg : Config) (e : JsError) (times : Nat → Nat)
    (hth : 1 ≤ cfg.circuitBreakerThreshold) :
    runFailCalls cfg e times cfg.circuitBreakerThreshold freshState =
      ⟨cfg.circuitBreakerThreshold, true,
        some (times (cfg.circuitBreakerThreshold - 1) + cfg.circuitBreakerTimeout)⟩ := by
  obtain ⟨k, hk⟩ : ∃ k, cfg.circuitBreakerThreshold = k + 1 :=
    ⟨cfg.circuitBreakerThreshold - 1, by omega⟩
  rw [hk]
  have hstep : runFailCalls cfg e times (k + 1) freshState
      = (makeRequest cfg false (netFailEnv e (times k))
          (runFailCalls cfg e times k freshState)).state := rfl
  rw [hstep, runFailCalls_below cfg e times k (by omega)]
  have hchk := checkCircuitBreaker_closed ((netFailEnv e (times k)) 0).checkTime
    (⟨k, false, none⟩ : ClientState) rfl
  have htry : tryBody cfg ((netFailEnv e (times k)) 0) ⟨k, false, none⟩
      = Except.error (e, ⟨k, false, none⟩) := rfl
  unfold makeRequest
  rw [makeRequestAux_err _ _ _ _ _ _ _ _ hchk htry, if_neg (by simp)]
  dsimp only
  unfold recordFailure
  dsimp only
  rw [if_pos (by omega)]
  simp [netFailEnv]

/-- `_makeRequest` preserves the breaker invariant. -/
theorem makeRequestAux_inv (cfg : Config) (isGet : Bool)
    (env : Nat → AttemptEvent) :
    ∀ rc s, BreakerInv s → BreakerInv (makeRequestAux cfg isGet env rc s).state := by
  intro rc s
  induction rc, s using makeRequestAux.induct cfg isGet env with
  | case1 rc s e hchk =>
    intro h
    rw [makeRequestAux_check_error cfg isGet env rc s e hchk]
    exact h
  | case2 rc s s1 hchk v s2 htry =>
    intro h
    rw [makeRequestAux_ok cfg isGet env rc s s1 v s2 hchk htry]
    exact tryBody_ok_inv _ _ _ _ _ htry (checkCircuitBreaker_ok_inv _ _ _ hchk h)
  | case3 rc s s1 hchk e s2 htry s3 hguard ih =>
    intro h
    rw [makeRequestAux_err cfg isGet env rc s s1 e s2 hchk htry, if_pos hguard]
    exact ih (recordFailure_inv _ _ _
      (tryBody_error_inv _ _ _ _ _ htry (checkCircuitBreaker_ok_inv _ _ _ hchk h)))
  | case4 rc s s1 hchk e s2 htry hguard =>
    intro h
    rw [makeRequestAux_err cfg isGet env rc s s1 e s2 hchk htry, if_neg hguard]
    exact recordFailure_inv _ _ _
      (tryBody_error_inv _ _ _ _ _ htry (checkCircuitBreaker_ok_inv _ _ _ hchk h))

/-- A mutating (non-GET) call makes at most one attempt. -/
theorem makeRequest_post_attempts_le_one (cfg : Config) (env : Nat → AttemptEvent)
    (s : ClientState) : (makeRequest cfg false env s).attempts ≤ 1 := by
  unfold makeRequest
  cases hchk : checkCircuitBreaker (env 0).checkTime s with
  | error e =>
    rw [makeRequestAux_check_error cfg false env 0 s e hchk]
    dsimp only
    omega
  | ok s1 =>
    cases htry : tryBody cfg (env 0) s1 with
    | ok p =>
      rw [makeRequestAux_ok cfg false env 0 s s1 p.1 p.2 hchk (by rw [htry])]
    | error p =>
      rw [makeRequestAux_err cfg false env 0 s s1 p.1 p.2 hchk (by rw [htry]),
        if_neg (by simp)]

/-- For a closed breaker, `_recordFailure` opens it exactly when the
incremented counter reaches the threshold. -/
theorem recordFailure_open_eq (cfg : Config) (now : Nat) (s : ClientState)
    (hopen : s.circuitBreakerOpen = false) :
    (recordFailure cfg now s).circuitBreakerOpen
      = decide (cfg.circuitBreakerThreshold ≤ s.circuitBreakerFailures + 1) := by
  unfold recordFailure
  dsimp only
  by_cases hc : cfg.circuitBreakerThreshold ≤ s.circuitBreakerFailures + 1
  · rw [if_pos hc]
    simp [hc]
  · rw [if_neg hc]
    simp [hopen, hc]

/-- `_recordFailure` never closes an open breaker. -/
theorem recordFailure_open_of_open (cfg : Config) (now : Nat) (s : ClientState)
    (hopen : s.circuitBreakerOpen = true) :
    (recordFailure cfg now s).circuitBreakerOpen = true := by
  unfold recordFailure
  dsimp only
  split
  · rfl
  · exact hopen

/-- Two consecutive `_recordFailure` calls on a closed, zero-counter state
(the shape of a non-2xx attempt, which records once in the `try` and once in
the `catch`) leave the counter at 2 and open the breaker exactly when the
threshold is at most 2. -/
theorem recordFailure_twice_fresh (cfg : Config) (d1 d2 : Nat) (s : ClientState)
    (hopen : s.circuitBreakerOpen = false) (hf : s.circuitBreakerFailures = 0) :
    (recordFailure cfg d2 (recordFailure cfg d1 s)).circuitBreakerFailures = 2 ∧
    ((recordFailure cfg d2 (recordFailure cfg d1 s)).circuitBreakerOpen = true ↔
      cfg.circuitBreakerThreshold ≤ 2) := by
  constructor
  · rw [recordFailure_failures, recordFailure_failures, hf]
  · by_cases h1 : cfg.circuitBreakerThreshold ≤ 1
    · have hr1 : (recordFailure cfg d1 s).circuitBreakerOpen = true := by
        rw [recordFailure_open_eq cfg d1 s hopen, hf]
        simpa using h1
      rw [recordFailure_open_of_open cfg d2 _ hr1]
      exact ⟨fun _ => by omega, fun _ => rfl⟩
    · have hr1 : (recordFailure cfg d1 s).circuitBreakerOpen = false := by
        rw [recordFailure_open_eq cfg d1 s hopen, hf]
        simpa using h1
      rw [recordFailure_open_eq cfg d2 _ hr1, recordFailure_failures, hf]
      simp only [decide_eq_true_eq]

/-! ### Claims -/

/-- C1, counterexample: a single non-2xx attempt (HTTP 500 on a mutating
call from a fresh client) increments the failure counter by two, not by
exactly one as claimed: `_recordFailure` fires once inside the `try` block
(line 503) and a second time in the `catch` block (line 512). -/
theorem C1_counterexample :
    (makeRequest defaultCfg false (fun _ => http500Ev) freshState).state.circuitBreakerFailures = 2 ∧
    ¬ (makeRequest defaultCfg false (fun _ => http500Ev) freshState).state.circuitBreakerFailures
        = freshState.circuitBreakerFailures + 1 := by
  constructor
  · simp [makeRequest, makeRequestAux, tryBody, checkCircuitBreaker, recordFailure,
      freshState, defaultCfg, http500Ev, HttpResponse.isOk, httpStatusError, parseErr]
  · simp [makeRequest, makeRequestAux, tryBody, checkCircuitBreaker, recordFailure,
      freshState, defaultCfg, http500Ev, HttpResponse.isOk, httpStatusError, parseErr]

/-- C1 (amended): on a call whose breaker check passes, a successful attempt
(2xx with a JSON body) resets the failure counter to 0; a failed attempt
increments the counter by exactly one when the failure is a fetch-level
rejection (timeout/abort or connection error) or a JSON parse error, but by
exactly two when it is a non-2xx HTTP status (double `_recordFailure`); and
on a GET call against persistently rejecting fetches, retried attempts
included, each attempt made adds exactly one to the counter. -/
theorem C1_failure_counter_accounting (cfg : Config) (s : ClientState)
    (ev : AttemptEvent) (hclosed : s.circuitBreakerOpen = false) :
    (∀ r v, ev.result = FetchResult.resp r → r.isOk = true →
      r.jsonBody = Except.ok v →
      (makeRequest cfg false (fun _ => ev) s).state.circuitBreakerFailures = 0) ∧
    (∀ e, ev.result = FetchResult.err e →
      (makeRequest cfg false (fun _ => ev) s).state.circuitBreakerFailures
        = s.circuitBreakerFailures + 1) ∧
    (∀ r e, ev.result = FetchResult.resp r → r.isOk = true →
      r.jsonBody = Except.error e →
      (makeRequest cfg false (fun _ => ev) s).state.circuitBreakerFailures
        = s.circuitBreakerFailures + 1) ∧
    (∀ r, ev.result = FetchResult.resp r → r.isOk = false →
      (makeRequest cfg false (fun _ => ev) s).state.circuitBreakerFailures
        = s.circuitBreakerFailures + 2) ∧
    (∀ e, 0 < cfg.circuitBreakerTimeout →
      (makeRequest cfg true (netFailEnv e 0) s).state.circuitBreakerFailures
        = s.circuitBreakerFailures + (makeRequest cfg true (netFailEnv e 0) s).attempts) := by
  have hchk : checkCircuitBreaker ((fun _ => ev) 0).checkTime s = Except.ok s :=
    checkCircuitBreaker_closed _ _ hclosed
  refine ⟨?_, ?_, ?_, ?_, ?_⟩
  · intro r v hres hok hjson
    have ht : tryBody cfg ev s = Except.ok (v, recordSuccess s) := by
      simp [tryBody, hres, hok, hjson]
    unfold makeRequest
    rw [makeRequestAux_ok cfg false (fun _ => ev) 0 s s v (recordSuccess s) hchk ht]
    unfold recordSuccess
    dsimp only
    split
    · rfl
    · omega
  · intro e hres
    have ht : tryBody cfg ev s = Except.error (e, s) := by
      simp [tryBody, hres]
    unfold makeRequest
    rw [makeRequestAux_err cfg false (fun _ => ev) 0 s s e s hchk ht, if_neg (by simp)]
    dsimp only
    rw [recordFailure_failures]
  · intro r e hres hok hjson
    have ht : tryBody cfg ev s = Except.error (e, s) := by
      simp [tryBody, hres, hok, hjson]
    unfold makeRequest
    rw [makeRequestAux_err cfg false (fun _ => ev) 0 s s e s hchk ht, if_neg (by simp)]
    dsimp only
    rw [recordFailure_failures]
  · intro r hres hok
    have ht : tryBody cfg ev s
        = Except.error (httpStatusError r.status r.statusText,
            recordFailure cfg ev.doneTime s) := by
      simp [tryBody, hres, hok]
    unfold makeRequest
    rw [makeRequestAux_err cfg false (fun _ => ev) 0 s s _ _ hchk ht, if_neg (by simp)]
    dsimp only
    rw [recordFailure_failures, recordFailure_failures]
  · intro e hcb
    unfold makeRequest
    exact makeRequestAux_counts cfg true e 0 hcb 0 s
      (fun ho => absurd ho (by rw [hclosed]; exact Bool.false_ne_true))

/-- C1 witness. -/
theorem C1_failure_counter_accounting_witness :
    (makeRequest defaultCfg false (fun _ => successEnv healthyValue 0)
      freshState).state.circuitBreakerFailures = 0 ∧
    (makeRequest defaultCfg false (fun _ => netFailEnv connRefusedErr 0 0)
      freshState).state.circuitBreakerFailures
        = freshState.circuitBreakerFailures + 1 :=
  ⟨(C1_failure_counter_accounting defaultCfg freshState (successEnv healthyValue 0)
      rfl).1 ⟨200, "OK", Except.ok healthyValue⟩ healthyValue rfl (by decide) rfl,
   (C1_failure_counter_accounting defaultCfg freshState (netFailEnv connRefusedErr 0 0)
      rfl).2.1 connRefusedErr rfl⟩

/-- C2, counterexample: with the default configuration (threshold 5), a
probe attempt made once the reset time has elapsed that then fails leaves
the breaker CLOSED with one recorded failure — it does not re-open the
breaker for another full reset window, because `_checkCircuitBreaker` reset
the counter to 0 before the probe. -/
theorem C2_counterexample :
    (makeRequest defaultCfg false
      (fun _ => (⟨1000, FetchResult.err connRefusedErr, 1000⟩ : AttemptEvent))
      openState).attempts = 1 ∧
    (makeRequest defaultCfg false
      (fun _ => (⟨1000, FetchResult.err connRefusedErr, 1000⟩ : AttemptEvent))
      openState).state.circuitBreakerOpen = false := by
  constructor
  · simp [makeRequest, makeRequestAux, tryBody, checkCircuitBreaker, recordFailure,
      openState, defaultCfg, connRefusedErr, shouldRetry, strIncludes, hasInfixChars,
      hasPrefixChars]
  · simp [makeRequest, makeRequestAux, tryBody, checkCircuitBreaker, recordFailure,
      openState, defaultCfg, connRefusedErr, shouldRetry, strIncludes, hasInfixChars,
      hasPrefixChars]

/-- C2 (amended): when the breaker is OPEN and the reset time has elapsed
(`open-until ≤ now`), the next call is attempted as a real request (probe
semantics, at least one attempt); if the probe succeeds the failure counter
is 0 and the breaker is CLOSED. If the probe fails, the counter — reset to 0
by the lazy check — becomes 1 for fetch-level failures (timeout/abort or
connection error) and for JSON parse failures, re-opening the breaker only
when the threshold is at most 1, and becomes 2 for non-2xx HTTP status
failures (which record twice), re-opening only when the threshold is at most
2 — in particular, with the default threshold 5 a single failed probe of any
kind leaves the breaker CLOSED. -/
theorem C2_probe_semantics (cfg : Config) (s : ClientState) (t : Nat)
    (ev : AttemptEvent) (hopen : s.circuitBreakerOpen = true)
    (hrt : s.circuitBreakerResetTime = some t) (helapsed : t ≤ ev.checkTime) :
    1 ≤ (makeRequest cfg false (fun _ => ev) s).attempts ∧
    (∀ r v, ev.result = FetchResult.resp r → r.isOk = true →
      r.jsonBody = Except.ok v →
      (makeRequest cfg false (fun _ => ev) s).state.circuitBreakerFailures = 0 ∧
      (makeRequest cfg false (fun _ => ev) s).state.circuitBreakerOpen = false) ∧
    (∀ e, ev.result = FetchResult.err e →
      (makeRequest cfg false (fun _ => ev) s).state.circuitBreakerFailures = 1 ∧
      ((makeRequest cfg false (fun _ => ev) s).state.circuitBreakerOpen = true ↔
        cfg.circuitBreakerThreshold ≤ 1)) ∧
    (∀ r e, ev.result = FetchResult.resp r → r.isOk = true →
      r.jsonBody = Except.error e →
      (makeRequest cfg false (fun _ => ev) s).state.circuitBreakerFailures = 1 ∧
      ((makeRequest cfg false (fun _ => ev) s).state.circuitBreakerOpen = true ↔
        cfg.circuitBreakerThreshold ≤ 1)) ∧
    (∀ r, ev.result = FetchResult.resp r → r.isOk = false →
      (makeRequest cfg false (fun _ => ev) s).state.circuitBreakerFailures = 2 ∧
      ((makeRequest cfg false (fun _ => ev) s).state.circuitBreakerOpen = true ↔
        cfg.circuitBreakerThreshold ≤ 2)) := by
  have hchk : checkCircuitBreaker ((fun _ => ev) 0).checkTime s
      = Except.ok { s with circuitBreakerOpen := false, circuitBreakerFailures := 0 } :=
    checkCircuitBreaker_resets _ _ _ hopen hrt helapsed
  refine ⟨?_, ?_, ?_, ?_, ?_⟩
  · exact makeRequestAux_attempts_one_le cfg false (fun _ => ev) 0 s _ hchk
  · intro r v hres hok hjson
    have ht : tryBody cfg ev { s with circuitBreakerOpen := false, circuitBreakerFailures := 0 }
        = Except.ok (v, { s with circuitBreakerOpen := false, circuitBreakerFailures := 0 }) := by
      simp [tryBody, hres, hok, hjson, recordSuccess]
    unfold makeRequest
    rw [makeRequestAux_ok cfg false (fun _ => ev) 0 s _ v _ hchk ht]
    exact ⟨rfl, rfl⟩
  · intro e hres
    have ht : tryBody cfg ev { s with circuitBreakerOpen := false, circuitBreakerFailures := 0 }
        = Except.error (e, { s with circuitBreakerOpen := false, circuitBreakerFailures := 0 }) := by
      simp [tryBody, hres]
    unfold makeRequest
    rw [makeRequestAux_err cfg false (fun _ => ev) 0 s _ e _ hchk ht, if_neg (by simp)]
    dsimp only
    unfold recordFailure
    dsimp only
    by_cases hc : cfg.circuitBreakerThreshold ≤ 0 + 1
    · rw [if_pos hc]
      exact ⟨rfl, by simpa using hc⟩
    · rw [if_neg hc]
      constructor
      · rfl
      · simp only [show (0 : Nat) + 1 = 1 from rfl] at hc
        simp [hc]
  · intro r e hres hok hjson
    have ht : tryBody cfg ev { s with circuitBreakerOpen := false, circuitBreakerFailures := 0 }
        = Except.error (e, { s with circuitBreakerOpen := false, circuitBreakerFailures := 0 }) := by
      simp [tryBody, hres, hok, hjson]
    unfold makeRequest
    rw [makeRequestAux_err cfg false (fun _ => ev) 0 s _ e _ hchk ht, if_neg (by simp)]
    dsimp only
    unfold recordFailure
    dsimp only
    by_cases hc : cfg.circuitBreakerThreshold ≤ 0 + 1
    · rw [if_pos hc]
      exact ⟨rfl, by simpa using hc⟩
    · rw [if_neg hc]
      constructor
      · rfl
      · simp only [show (0 : Nat) + 1 = 1 from rfl] at hc
        simp [hc]
  · intro r hres hok
    have ht : tryBody cfg ev { s with circuitBreakerOpen := false, circuitBreakerFailures := 0 }
        = Except.error (httpStatusError r.status r.statusText,
            recordFailure cfg ev.doneTime
              { s with circuitBreakerOpen := false, circuitBreakerFailures := 0 }) := by
      simp [tryBody, hres, hok]
    unfold makeRequest
    rw [makeRequestAux_err cfg false (fun _ => ev) 0 s _ _ _ hchk ht, if_neg (by simp)]
    dsimp only
    exact recordFailure_twice_fresh cfg ev.doneTime ((fun _ => ev) 0).doneTime
      { s with circuitBreakerOpen := false, circuitBreakerFailures := 0 } rfl rfl

/-- C2 witness. -/
theorem C2_probe_semantics_witness :
    1 ≤ (makeRequest defaultCfg false
      (fun _ => (⟨1000, FetchResult.err connRefusedErr, 1000⟩ : AttemptEvent))
      openState).attempts :=
  (C2_probe_semantics defaultCfg openState 1000
    ⟨1000, FetchResult.err connRefusedErr, 1000⟩ rfl rfl (by decide)).1

/-- C3: starting from a fresh client, after exactly
`circuitBreakerThreshold` consecutive failed attempts the breaker is OPEN
with open-until set `circuitBreakerTimeout` past the final failure, and any
call made before open-until (from that state, or from any open state before
its reset time) fails with the circuit-open error, performs no network
attempt, and leaves the state — in particular the failure counter —
unchanged. -/
theorem C3_threshold_opens_then_rejects (cfg : Config) (e : JsError)
    (times : Nat → Nat) (hth : 1 ≤ cfg.circuitBreakerThreshold) :
    (runFailCalls cfg e times cfg.circuitBreakerThreshold
      freshState).circuitBreakerOpen = true ∧
    (runFailCalls cfg e times cfg.circuitBreakerThreshold
      freshState).circuitBreakerResetTime
      = some (times (cfg.circuitBreakerThreshold - 1) + cfg.circuitBreakerTimeout) ∧
    (∀ (isGet : Bool) (env : Nat → AttemptEvent),
      (env 0).checkTime < times (cfg.circuitBreakerThreshold - 1) + cfg.circuitBreakerTimeout →
      makeRequest cfg isGet env
          (runFailCalls cfg e times cfg.circuitBreakerThreshold freshState)
        = ⟨0, 0, Except.error circuitOpenError,
            runFailCalls cfg e times cfg.circuitBreakerThreshold freshState⟩) ∧
    (∀ (s : ClientState) (isGet : Bool) (env : Nat → AttemptEvent) (t : Nat),
      s.circuitBreakerOpen = true → s.circuitBreakerResetTime = some t →
      (env 0).checkTime < t →
      makeRequest cfg isGet env s = ⟨0, 0, Except.error circuitOpenError, s⟩) := by
  rw [runFailCalls_threshold cfg e times hth]
  refine ⟨rfl, rfl, ?_, ?_⟩
  · intro isGet env hlt
    exact makeRequestAux_reject cfg isGet env 0 _ _ rfl rfl hlt
  · intro s isGet env t hopen hrt hlt
    exact makeRequestAux_reject cfg isGet env 0 s t hopen hrt hlt

/-- C3 witness. -/
theorem C3_threshold_opens_then_rejects_witness :
    (runFailCalls defaultCfg connRefusedErr (fun n => 100 * n)
      defaultCfg.circuitBreakerThreshold freshState).circuitBreakerOpen = true :=
  (C3_threshold_opens_then_rejects defaultCfg connRefusedErr (fun n => 100 * n)
    (by decide)).1

/-- C4, counterexample: a connection-reset failure (`ECONNRESET`) on a GET
request with retries remaining is not retried — `_shouldRetry` checks for
`ECONNREFUSED`, `ETIMEDOUT` and `HTTP 5` but not `ECONNRESET` — so the call
makes exactly one attempt, contradicting the claim that connection-reset
conditions are retried. -/
theorem C4_counterexample :
    shouldRetry connResetErr = false ∧
    (makeRequest defaultCfg true
      (fun _ => (⟨0, FetchResult.err connResetErr, 0⟩ : AttemptEvent))
      freshState).attempts = 1 := by
  constructor
  · decide
  · simp [makeRequest, makeRequestAux, tryBody, checkCircuitBreaker, recordFailure,
      freshState, defaultCfg, connResetErr, shouldRetry, strIncludes, hasInfixChars,
      hasPrefixChars]

/-- C4 (amended): for a failed GET attempt with attempts remaining and the
breaker comfortably closed, a retry is performed if and only if
`_shouldRetry` accepts the error, i.e. exactly when the error is an abort
(timeout), or its message contains `ECONNREFUSED`, `ETIMEDOUT`, or
`HTTP 5`; so timeouts, connection-refused, connect-timeout and HTTP 5xx
failures are retried, while connection-reset failures, HTTP 4xx responses
and JSON parse errors are surfaced immediately. -/
theorem C4_retry_condition (cfg : Config) (s : ClientState) (e : JsError)
    (ev : AttemptEvent) (hclosed : s.circuitBreakerOpen = false)
    (hev : ev.result = FetchResult.err e)
    (hth : s.circuitBreakerFailures + 1 < cfg.circuitBreakerThreshold)
    (hmr : 0 < cfg.maxRetries) :
    (2 ≤ (makeRequest cfg true (fun _ => ev) s).attempts ↔ shouldRetry e = true) ∧
    shouldRetry abortErr = true ∧
    shouldRetry connRefusedErr = true ∧
    shouldRetry etimedoutErr = true ∧
    shouldRetry (httpStatusError 503 "Service Unavailable") = true ∧
    shouldRetry (httpStatusError 500 "Internal Server Error") = true ∧
    shouldRetry connResetErr = false ∧
    shouldRetry (httpStatusError 404 "Not Found") = false ∧
    shouldRetry (httpStatusError 400 "Bad Request") = false ∧
    shouldRetry parseErr = false := by
  have hchk : checkCircuitBreaker ((fun _ => ev) 0).checkTime s = Except.ok s :=
    checkCircuitBreaker_closed _ _ hclosed
  have ht : tryBody cfg ev s = Except.error (e, s) := by
    simp [tryBody, hev]
  refine ⟨?_, by decide, by decide, by decide, by decide, by decide, by decide,
    by decide, by decide, by decide⟩
  unfold makeRequest
  by_cases hr : shouldRetry e = true
  · rw [makeRequestAux_err cfg true (fun _ => ev) 0 s s e s hchk ht,
      if_pos (by simp [hr, hmr])]
    dsimp only
    have hopen3 : (recordFailure cfg ((fun _ => ev) 0).doneTime s).circuitBreakerOpen
        = false := by
      unfold recordFailure
      dsimp only
      rw [if_neg (by omega)]
      exact hclosed
    have h1 := makeRequestAux_attempts_one_le cfg true (fun _ => ev) 1
      (recordFailure cfg ((fun _ => ev) 0).doneTime s) _
      (checkCircuitBreaker_closed _ _ hopen3)
    dsimp only at h1
    simp only [Nat.zero_add]
    constructor
    · intro _
      exact hr
    · intro _
      omega
  · rw [makeRequestAux_err cfg true (fun _ => ev) 0 s s e s hchk ht,
      if_neg (by simp [hr])]
    dsimp only
    constructor
    · intro h2
      omega
    · intro h2
      exact absurd h2 hr

/-- C4 witness. -/
theorem C4_retry_condition_witness :
    2 ≤ (makeRequest defaultCfg true
      (fun _ => (⟨0, FetchResult.err abortErr, 0⟩ : AttemptEvent))
      freshState).attempts :=
  (C4_retry_condition defaultCfg freshState abortErr
    ⟨0, FetchResult.err abortErr, 0⟩ rfl rfl (by decide) (by decide)).1.mpr (by decide)

/-- C5: for every environment (hence every sequence of backend failures),
the mutating operation `analyzeMessage` performs at most one network
attempt, and each read-only operation (`getTodayStats`, `getTrends`,
`healthCheck`) performs at most `maxRetries + 1` network attempts; the
retry recursion terminates by construction (`makeRequestAux` is total,
descending on `maxRetries - retryCount`). -/
theorem C5_attempt_bounds (cfg : Config) (env : Nat → AttemptEvent)
    (payload : Payload) (ch : Option String) (days : Nat) (s : ClientState) :
    (analyzeMessage cfg env payload s).attempts ≤ 1 ∧
    (getTodayStats cfg env ch s).attempts ≤ cfg.maxRetries + 1 ∧
    (getTrends cfg env days ch s).attempts ≤ cfg.maxRetries + 1 ∧
    (healthCheck cfg env s).attempts ≤ cfg.maxRetries + 1 := by
  have hget : (makeRequest cfg true env s).attempts ≤ cfg.maxRetries + 1 := by
    have h := makeRequestAux_attempts_le cfg true env 0 s (Nat.zero_le _)
    unfold makeRequest
    omega
  refine ⟨?_, ?_, ?_, ?_⟩
  · cases hm : payload.message with
    | none => simp [analyzeMessage, hm]
    | some v =>
      cases v with
      | other => simp [analyzeMessage, hm]
      | str m =>
        have hpost := makeRequest_post_attempts_le_one cfg env s
        cases hr : (makeRequest cfg false env s).result with
        | ok v2 => simpa [analyzeMessage, hm, hr] using hpost
        | error e => simpa [analyzeMessage, hm, hr] using hpost
  · cases hr : (makeRequest cfg true env s).result with
    | ok v2 => simpa [getTodayStats, hr] using hget
    | error e => simpa [getTodayStats, hr] using hget
  · cases hr : (makeRequest cfg true env s).result with
    | ok v2 => simpa [getTrends, hr] using hget
    | error e => simpa [getTrends, hr] using hget
  · cases hr : (makeRequest cfg true env s).result with
    | ok v2 => simpa [healthCheck, hr] using hget
    | error e => simpa [healthCheck, hr] using hget

/-- C6: `healthCheck` always returns a boolean (it has no error outcome in
the model, matching the catch-all in the source): it returns `true` exactly
when the underlying call succeeds with a body whose `status` field equals
`healthy`; every error outcome — including a circuit-open rejection, which
also performs no attempt — and every success with a different `status`
yield `false`. -/
theorem C6_healthCheck_boolean (cfg : Config) (env : Nat → AttemptEvent)
    (s : ClientState) :
    ((healthCheck cfg env s).value = true ↔
      ∃ v, (makeRequest cfg true env s).result = Except.ok v ∧
        v.status = some "healthy") ∧
    (∀ e, (makeRequest cfg true env s).result = Except.error e →
      (healthCheck cfg env s).value = false) ∧
    (∀ v, (makeRequest cfg true env s).result = Except.ok v →
      v.status ≠ some "healthy" → (healthCheck cfg env s).value = false) ∧
    (∀ t, s.circuitBreakerOpen = true → s.circuitBreakerResetTime = some t →
      (env 0).checkTime < t →
      (healthCheck cfg env s).value = false ∧ (healthCheck cfg env s).attempts = 0) := by
  refine ⟨?_, ?_, ?_, ?_⟩
  · cases hr : (makeRequest cfg true env s).result with
    | ok v =>
      simp only [healthCheck, hr]
      constructor
      · intro h
        exact ⟨v, rfl, by simpa using h⟩
      · rintro ⟨v2, hv2, hst⟩
        cases hv2
        simpa using hst
    | error e =>
      simp only [healthCheck, hr]
      constructor
      · intro h
        cases h
      · rintro ⟨v2, hv2, hst⟩
        cases hv2
  · intro e hr
    simp [healthCheck, hr]
  · intro v hr hst
    simp [healthCheck, hr]
    simpa using hst
  · intro t hopen hrt hlt
    have hrej : makeRequest cfg true env s
        = ⟨0, 0, Except.error circuitOpenError, s⟩ :=
      makeRequestAux_reject cfg true env 0 s t hopen hrt hlt
    constructor
    · simp [healthCheck, hrej]
    · simp [healthCheck, hrej]

/-- C6 witness. -/
theorem C6_healthCheck_boolean_witness :
    (healthCheck defaultCfg (successEnv healthyValue) freshState).value = true :=
  (C6_healthCheck_boolean defaultCfg (successEnv healthyValue) freshState).1.mpr
    ⟨healthyValue, by
      unfold makeRequest
      rw [makeRequestAux_ok defaultCfg true (successEnv healthyValue) 0 freshState
        freshState healthyValue (recordSuccess freshState) rfl rfl], rfl⟩

/-- C7: `validateConfig` fails with the configuration error, making no
network attempt and leaving the state untouched, whenever `baseURL` is
unset; when `baseURL` is set (non-empty), it succeeds exactly when
`healthCheck` reports healthy, and fails with the descriptive
backend-unresponsive error exactly when `healthCheck` reports unhealthy. -/
theorem C7_validateConfig (cfg : Config) (env : Nat → AttemptEvent)
    (s : ClientState) :
    (cfg.baseURL = none →
      validateConfig cfg env s = ⟨Except.error configurationError, 0, s⟩) ∧
    (∀ u, cfg.baseURL = some u → u ≠ "" →
      (((validateConfig cfg env s).result = Except.ok true ↔
        (healthCheck cfg env s).value = true) ∧
       ((healthCheck cfg env s).value = false →
        (validateConfig cfg env s).result = Except.error (backendUnhealthyError cfg)))) := by
  constructor
  · intro hb
    simp [validateConfig, hb]
  · intro u hb hu
    have hcond : ¬(cfg.baseURL = none ∨ cfg.baseURL = some "") := by
      rw [hb]
      rintro (h | h)
      · cases h
      · injection h with h2
        exact hu h2
    by_cases hv : (healthCheck cfg env s).value = true
    · unfold validateConfig
      rw [if_neg hcond, if_neg (by simp [hv])]
      dsimp only
      refine ⟨⟨fun _ => hv, fun _ => rfl⟩, ?_⟩
      intro h2
      rw [h2] at hv
      simp at hv
    · have hv2 : (healthCheck cfg env s).value = false := by
        rwa [Bool.not_eq_true] at hv
      unfold validateConfig
      rw [if_neg hcond, if_pos hv2]
      dsimp only
      refine ⟨⟨fun h2 => ?_, fun h2 => absurd h2 hv⟩, fun _ => rfl⟩
      cases h2

/-- C7 witness. -/
theorem C7_validateConfig_witness :
    validateConfig defaultCfg (successEnv healthyValue) freshState
      = ⟨Except.error configurationError, 0, freshState⟩ :=
  (C7_validateConfig defaultCfg (successEnv healthyValue) freshState).1 rfl

/-- C8: before retry attempt `n` (1-indexed; so with previous attempt index
`retryCount = n - 1`) the client sleeps exactly `retryDelay * n`
milliseconds; in the scenario where GET attempts see HTTP 503 twice and
then succeed, the call returns the third response body having slept exactly
`retryDelay * 1 + retryDelay * 2`. -/
theorem C8_linear_backoff (cfg : Config) (isGet : Bool)
    (env : Nat → AttemptEvent) (rc : Nat) (s s1 : ClientState) (e : JsError)
    (s2 : ClientState)
    (hchk : checkCircuitBreaker (env rc).checkTime s = Except.ok s1)
    (htry : tryBody cfg (env rc) s1 = Except.error (e, s2))
    (hguard : (isGet && decide (rc < cfg.maxRetries) && shouldRetry e) = true) :
    ((makeRequestAux cfg isGet env rc s).slept
      = cfg.retryDelay * (rc + 1)
        + (makeRequestAux cfg isGet env (rc + 1)
            (recordFailure cfg (env rc).doneTime s2)).slept) ∧
    makeRequest defaultCfg true env503 freshState
      = ⟨3, defaultCfg.retryDelay * 1 + defaultCfg.retryDelay * 2,
          Except.ok trendsValue, ⟨0, false, none⟩⟩ := by
  constructor
  · rw [makeRequestAux_err cfg isGet env rc s s1 e s2 hchk htry, if_pos hguard]
  · simp [makeRequest, makeRequestAux, tryBody, checkCircuitBreaker, recordFailure,
      recordSuccess, freshState, defaultCfg, env503, HttpResponse.isOk,
      httpStatusError, shouldRetry, strIncludes, hasInfixChars, hasPrefixChars,
      trendsValue, parseErr, Nat.digitChar]

/-- C8 witness. -/
theorem C8_linear_backoff_witness :
    (makeRequestAux defaultCfg true (netFailEnv abortErr 0) 0 freshState).slept
      = defaultCfg.retryDelay * (0 + 1)
        + (makeRequestAux defaultCfg true (netFailEnv abortErr 0) (0 + 1)
            (recordFailure defaultCfg (netFailEnv abortErr 0 0).doneTime
              freshState)).slept :=
  (C8_linear_backoff defaultCfg true (netFailEnv abortErr 0) 0 freshState freshState
    abortErr freshState rfl rfl (by decide)).1

/-- C9: every run of `_makeRequest` preserves the breaker invariant
(whenever the breaker is open a reset time is recorded); the breaker is
opened only by `_recordFailure` at a moment when the failure counter has
reached the threshold, with the reset time set to that moment plus
`circuitBreakerTimeout`; and the failure counter is a natural number, hence
non-negative. -/
theorem C9_breaker_invariant (cfg : Config) (isGet : Bool)
    (env : Nat → AttemptEvent) (rc : Nat) (s : ClientState)
    (h : BreakerInv s) :
    BreakerInv (makeRequestAux cfg isGet env rc s).state ∧
    (∀ now s0, s0.circuitBreakerOpen = false →
      (recordFailure cfg now s0).circuitBreakerOpen = true →
      (recordFailure cfg now s0).circuitBreakerResetTime
        = some (now + cfg.circuitBreakerTimeout) ∧
      cfg.circuitBreakerThreshold ≤ (recordFailure cfg now s0).circuitBreakerFailures) ∧
    0 ≤ (makeRequestAux cfg isGet env rc s).state.circuitBreakerFailures :=
  ⟨makeRequestAux_inv cfg isGet env rc s h,
   fun now s0 h1 h2 => recordFailure_opens cfg now s0 h2 h1,
   Nat.zero_le _⟩

/-- C9 witness. -/
theorem C9_breaker_invariant_witness :
    BreakerInv (makeRequestAux defaultCfg true (successEnv healthyValue) 0
      freshState).state :=
  (C9_breaker_invariant defaultCfg true (successEnv healthyValue) 0 freshState
    (by intro ho; cases ho)).1

/-- C10: when the payload has no `message` field or its `message` is not a
string, `analyzeMessage` throws a raw `TypeError` (raised by the
`payload.message.substring(0, 50)` logging call before the `try` block, so
it is not wrapped in the `Backend analysis failed` message), performs no
network attempt, and leaves the circuit-breaker state unchanged. -/
theorem C10_invalid_message_raw_type_error (cfg : Config)
    (env : Nat → AttemptEvent) (payload : Payload) (s : ClientState)
    (h : payload.message = none ∨ payload.message = some JsVal.other) :
    (analyzeMessage cfg env payload s).attempts = 0 ∧
    (analyzeMessage cfg env payload s).state = s ∧
    ∃ e, (analyzeMessage cfg env payload s).result = Except.error e ∧
      e.name = "TypeError" ∧
      strIncludes e.message "Backend analysis failed" = false := by
  cases h with
  | inl h =>
    refine ⟨by simp [analyzeMessage, h], by simp [analyzeMessage, h],
      ⟨"TypeError", "Cannot read properties of undefined (reading substring)"⟩,
      by simp [analyzeMessage, h], rfl, by decide⟩
  | inr h =>
    refine ⟨by simp [analyzeMessage, h], by simp [analyzeMessage, h],
      ⟨"TypeError", "payload.message.substring is not a function"⟩,
      by simp [analyzeMessage, h], rfl, by decide⟩

/-- C10 witness. -/
theorem C10_invalid_message_raw_type_error_witness :
    (analyzeMessage defaultCfg (successEnv healthyValue)
      ⟨none, none, none⟩ freshState).attempts = 0 :=
  (C10_invalid_message_raw_type_error defaultCfg (successEnv healthyValue)
    ⟨none, none, none⟩ freshState (Or.inl rfl)).1

end CliqDashboard
